import Mathlib

/-!
# Seat reservation and cancellation of `movie_booking_go`

A shallow embedding of `BookSeatHandler` and `CancelBookingHandler`
(`src/handlers.go`) over the rows declared in `src/models.go`.

Modelling conventions.

* The relational store is a value `DB` holding the `shows` and `bookings`
  tables as lists of rows in insertion order.  Every query of the handlers is a
  total function on that value; a failing connection or a timeout (the generic
  `return err` branches) is not modelled.
* `gorm:"primaryKey"` on an unsigned column is an auto-increment key: `Create`
  gives the new row a key one larger than every key in the table.  Keys and
  user ids are natural numbers (Go `uint`); seat numbers and seat totals are
  integers (Go `int`); only comparisons are made on them, so no wrap-around
  can occur.
* `time.Now()` is a parameter `now`.
* The soft-delete column `DeletedAt` is left out: no handler deletes a row.
* The path parameter `id` is modelled after its conversion to a key.
* A request body is modelled after JSON decoding into `BookSeatRequest`.  A body
  that does not decode (malformed JSON, or a `seat_number` that does not fit a
  Go `int`) is answered 400 with the error of the decoder before any validation
  runs; such bodies are not values of the decoded struct, and statements about
  all seat numbers are made for the values a Go `int` holds (`IsGoInt`).
-/

namespace MovieBooking

/-! ## Rows (`src/models.go`) -/

/-- The Go type `BookingStatus`, a string. -/
abbrev BookingStatus := String

/-- Status of a live reservation. -/
def BookingStatusBooked : BookingStatus := "booked"

/-- Status of a reservation that was cancelled. -/
def BookingStatusCancelled : BookingStatus := "cancelled"

/-- Row of the `shows` table, restricted to the columns the handlers read. -/
structure Show where
  ID : Nat
  TotalSeats : Int
  deriving DecidableEq, Repr

/-- Row of the `bookings` table. -/
structure Booking where
  ID : Nat
  UserID : Nat
  ShowID : Nat
  SeatNumber : Int
  Status : BookingStatus
  CreatedAt : Nat
  UpdatedAt : Nat
  deriving DecidableEq, Repr

/-- The persisted state: the two tables the booking handlers touch. -/
structure DB where
  shows : List Show
  bookings : List Booking
  deriving DecidableEq, Repr

/-- The JSON body of a booking request after decoding
(`SeatNumber int binding:"required"`); an absent field decodes to `0`.  The
field is a Go `int`: the values that decoding can produce are those of
`IsGoInt`. -/
structure BookSeatRequest where
  SeatNumber : Int
  deriving DecidableEq, Repr

/-- Smallest value of a Go `int` (64 bits). -/
def MinInt : Int := -9223372036854775808

/-- Largest value of a Go `int` (64 bits). -/
def MaxInt : Int := 9223372036854775807

/-- The integers a Go `int` field holds, that is, the seat numbers a decoded
`BookSeatRequest` can carry. -/
def IsGoInt (n : Int) : Prop := MinInt ≤ n ∧ n ≤ MaxInt

instance (n : Int) : Decidable (IsGoInt n) := by
  unfold IsGoInt; infer_instance

/-! ## HTTP responses -/

/-- What a handler writes with `c.JSON`. -/
inductive Response where
  /-- Body `{"error": msg}` with the given status code. -/
  | error (status : Nat) (msg : String)
  /-- Body `{"message": msg}` with the given status code. -/
  | message (status : Nat) (msg : String)
  /-- Body is the serialised booking, with the given status code. -/
  | booking (status : Nat) (b : Booking)
  deriving DecidableEq, Repr

def StatusOK : Nat := 200
def StatusCreated : Nat := 201
def StatusBadRequest : Nat := 400
def StatusUnauthorized : Nat := 401
def StatusForbidden : Nat := 403
def StatusNotFound : Nat := 404

/-- The error a transaction callback returns: a `gin.Error` of type
`ErrorTypePublic` carrying a message. -/
structure PublicError where
  msg : String
  deriving DecidableEq, Repr

/-! ## Queries -/

/-- Query `First(&show, showID)`: the show with the given key. -/
def firstShow (s : DB) (showID : Nat) : Option Show :=
  s.shows.find? (fun sh => decide (sh.ID = showID))

/-- Query `First(&booking, bookingID)`: the booking with the given key. -/
def firstBooking (s : DB) (bookingID : Nat) : Option Booking :=
  s.bookings.find? (fun b => decide (b.ID = bookingID))

/-- Query `Where("show_id = ? AND status = ?", showID, booked).Count(&count)`. -/
def countBooked (s : DB) (showID : Nat) : Nat :=
  s.bookings.countP
    (fun b => decide (b.ShowID = showID ∧ b.Status = BookingStatusBooked))

/-- Query `Where("show_id = ? AND seat_number = ? AND status = ?", showID,
seat, booked).First(&existing)`. -/
def firstBookedSeat (s : DB) (showID : Nat) (seat : Int) : Option Booking :=
  s.bookings.find? (fun b =>
    decide (b.ShowID = showID ∧ b.SeatNumber = seat ∧ b.Status = BookingStatusBooked))

/-- Largest key of the `bookings` table (`0` when empty). -/
def maxBookingID (bs : List Booking) : Nat :=
  bs.foldr (fun b m => max b.ID m) 0

/-- Statement `Create(&booking)`: the row is stored under a fresh
auto-increment key and the stored row is handed back. -/
def createBooking (s : DB) (b : Booking) : Booking × DB :=
  let row : Booking := { b with ID := maxBookingID s.bookings + 1 }
  (row, { s with bookings := s.bookings ++ [row] })

/-- Statement `Model(&booking).Update("status", status)`: the status column of
the row with the key of `booking` is set, and its update stamp refreshed. -/
def updateStatus (s : DB) (bookingID : Nat) (status : BookingStatus) (now : Nat) : DB :=
  { s with bookings := s.bookings.map (fun b =>
      if b.ID = bookingID then { b with Status := status, UpdatedAt := now } else b) }

/-! ## Handlers (`src/handlers.go`) -/

/-- Text of the validation error for a field that fails its `required` tag. -/
def requiredTagMessage : String :=
  "Key: \x27BookSeatRequest.SeatNumber\x27 Error:Field validation for " ++
    "\x27SeatNumber\x27 failed on the \x27required\x27 tag"

/-- Outcome of `c.ShouldBindJSON(&req)` on a body that decoded into `req`: the
`required` tag rejects the zero value of the field.  The decoding step itself,
which fails on a number outside the Go `int` range, comes before and is not
part of this function. -/
def ShouldBindJSON (req : BookSeatRequest) : Except String BookSeatRequest :=
  if req.SeatNumber = 0 then .error requiredTagMessage else .ok req

/-- The struct literal `Booking{...}` that `BookSeatHandler` hands to `Create`;
its key is still the zero value. -/
def newBooking (userID showID : Nat) (seat : Int) (now : Nat) : Booking :=
  { ID := 0, UserID := userID, ShowID := showID, SeatNumber := seat,
    Status := BookingStatusBooked, CreatedAt := now, UpdatedAt := now }

/-- The callback passed to `db.Transaction` in `BookSeatHandler`
(lines 139-192).  A returned error rolls the transaction back, so the store is
unchanged in that case. -/
def bookSeatTx (s : DB) (userID showID : Nat) (req : BookSeatRequest) (now : Nat) :
    Except PublicError (Booking × DB) :=
  match firstShow s showID with
  | none => .error ⟨"Show not found"⟩
  | some sh =>
    -- Validate seat range
    if req.SeatNumber < 1 ∨ req.SeatNumber > sh.TotalSeats then
      .error ⟨"Invalid seat number"⟩
    -- Check overbooking
    else if (countBooked s sh.ID : Int) ≥ sh.TotalSeats then
      .error ⟨"Show is fully booked"⟩
    else
      -- Check double booking for same seat
      match firstBookedSeat s sh.ID req.SeatNumber with
      | some _ => .error ⟨"Seat already booked"⟩
      | none =>
        .ok (createBooking s (newBooking userID sh.ID req.SeatNumber now))

/-- Handler `BookSeatHandler` (`POST /shows/:id/book`).  `userID` is the value of
`GetUserID(c)`, which is `0` when no authenticated user is attached. -/
def BookSeatHandler (s : DB) (userID showID : Nat) (body : BookSeatRequest) (now : Nat) :
    Response × DB :=
  if userID = 0 then (.error StatusUnauthorized "Unauthorized", s)
  else
    match ShouldBindJSON body with
    | .error e => (.error StatusBadRequest e, s)
    | .ok req =>
      match bookSeatTx s userID showID req now with
      | .error ginErr => (.error StatusBadRequest ginErr.msg, s)
      | .ok (booking, s') => (.booking StatusCreated booking, s')

/-- Handler `CancelBookingHandler` (`POST /bookings/:id/cancel`). -/
def CancelBookingHandler (s : DB) (userID bookingID : Nat) (now : Nat) : Response × DB :=
  if userID = 0 then (.error StatusUnauthorized "Unauthorized", s)
  else
    match firstBooking s bookingID with
    | none => (.error StatusNotFound "Booking not found", s)
    | some booking =>
      -- Security: user cannot cancel bookings of other users
      if booking.UserID ≠ userID then
        (.error StatusForbidden "You are not allowed to cancel this booking", s)
      else if booking.Status ≠ BookingStatusBooked then
        (.error StatusBadRequest "Booking is not in booked status", s)
      else
        (.message StatusOK "Booking cancelled successfully",
          updateStatus s booking.ID BookingStatusCancelled now)

/-! ## Call sequences -/

/-- One request to the booking API. -/
inductive Call where
  | reserve (userID showID : Nat) (body : BookSeatRequest) (now : Nat)
  | cancel (userID bookingID : Nat) (now : Nat)
  deriving DecidableEq, Repr

/-- The store after serving one request. -/
def step (s : DB) : Call → DB
  | .reserve userID showID body now => (BookSeatHandler s userID showID body now).2
  | .cancel userID bookingID now => (CancelBookingHandler s userID bookingID now).2

/-- The store after serving the requests one after another. -/
def run (s : DB) (calls : List Call) : DB :=
  calls.foldl step s

/-- Number of `booked` rows for a seat of a show. -/
def countBookedSeat (s : DB) (showID : Nat) (seat : Int) : Nat :=
  s.bookings.countP (fun b =>
    decide (b.ShowID = showID ∧ b.SeatNumber = seat ∧ b.Status = BookingStatusBooked))

/-- The key constraints of the schema: no two rows of a table share a key. -/
def PrimaryKeys (s : DB) : Prop :=
  (s.shows.map Show.ID).Nodup ∧ (s.bookings.map Booking.ID).Nodup

instance (s : DB) : Decidable (PrimaryKeys s) := by
  unfold PrimaryKeys; infer_instance

/-- The request that books `seat`: the decoded body with that seat number. -/
def seatRequest (seat : Int) : BookSeatRequest := { SeatNumber := seat }

/-! ## Lemmas on lists of rows -/

theorem find_of_nodup_key {α : Type} (key : α → Nat) (l : List α) (x : α)
    (hnd : (l.map key).Nodup) (hx : x ∈ l) :
    l.find? (fun y => decide (key y = key x)) = some x := by
  induction l with
  | nil => cases hx
  | cons a l ih =>
    rw [List.map_cons, List.nodup_cons] at hnd
    rcases List.mem_cons.1 hx with rfl | hmem
    · simp
    · have hne : key a ≠ key x := by
        intro h
        exact hnd.1 (h ▸ List.mem_map_of_mem key hmem)
      rw [List.find?_cons_of_neg _ (by simpa using hne)]
      exact ih hnd.2 hmem

theorem countP_map_le {α : Type} (p : α → Bool) (f : α → α) (l : List α)
    (h : ∀ x, p (f x) = true → p x = true) :
    (l.map f).countP p ≤ l.countP p := by
  rw [List.countP_map]
  exact List.countP_mono_left (fun x _ hx => h x hx)

theorem countP_comp_lt {α : Type} (p : α → Bool) (f : α → α) (l : List α) (b : α)
    (h : ∀ x, p (f x) = true → p x = true)
    (hb : b ∈ l) (hpb : p b = true) (hfb : p (f b) = false) :
    l.countP (p ∘ f) < l.countP p := by
  induction l with
  | nil => cases hb
  | cons a l ih =>
    have hle : l.countP (p ∘ f) ≤ l.countP p :=
      List.countP_mono_left (fun x _ hx => h x hx)
    rw [List.countP_cons, List.countP_cons]
    rcases List.mem_cons.1 hb with rfl | hmem
    · have h1 : (p ∘ f) b = false := hfb
      rw [h1, hpb]
      simp only [if_true, Bool.false_eq_true, if_false]
      omega
    · have hlt := ih hmem
      by_cases hfa : (p ∘ f) a = true
      · have hpa : p a = true := h a hfa
        rw [hfa, hpa]
        simp only [if_true]
        omega
      · rw [if_neg hfa]
        split <;> omega

theorem countP_map_lt {α : Type} (p : α → Bool) (f : α → α) (l : List α) (b : α)
    (h : ∀ x, p (f x) = true → p x = true)
    (hb : b ∈ l) (hpb : p b = true) (hfb : p (f b) = false) :
    (l.map f).countP p < l.countP p := by
  rw [List.countP_map]
  exact countP_comp_lt p f l b h hb hpb hfb

theorem le_maxBookingID (bs : List Booking) (b : Booking) (hb : b ∈ bs) :
    b.ID ≤ maxBookingID bs := by
  induction bs with
  | nil => cases hb
  | cons a l ih =>
    have hcons : maxBookingID (a :: l) = max a.ID (maxBookingID l) := rfl
    rw [hcons]
    rcases List.mem_cons.1 hb with rfl | hmem
    · exact le_max_left _ _
    · exact le_trans (ih hmem) (le_max_right _ _)

/-! ## The handlers case by case -/

theorem firstShow_ID (s : DB) (showID : Nat) (sh : Show)
    (h : firstShow s showID = some sh) : sh.ID = showID := by
  have := List.find?_some h
  simpa using this

theorem firstBooking_ID (s : DB) (bookingID : Nat) (b : Booking)
    (h : firstBooking s bookingID = some b) : b.ID = bookingID := by
  have := List.find?_some h
  simpa using this

theorem firstBooking_of_mem (s : DB) (b : Booking)
    (hk : (s.bookings.map Booking.ID).Nodup) (hb : b ∈ s.bookings) :
    firstBooking s b.ID = some b :=
  find_of_nodup_key Booking.ID s.bookings b hk hb

theorem firstShow_of_mem (s : DB) (sh : Show)
    (hk : (s.shows.map Show.ID).Nodup) (hs : sh ∈ s.shows) :
    firstShow s sh.ID = some sh :=
  find_of_nodup_key Show.ID s.shows sh hk hs

theorem booked_ne_cancelled : BookingStatusCancelled ≠ BookingStatusBooked := by decide

theorem firstBookedSeat_none_iff (s : DB) (showID : Nat) (seat : Int) :
    firstBookedSeat s showID seat = none ↔ countBookedSeat s showID seat = 0 := by
  unfold firstBookedSeat countBookedSeat
  rw [List.find?_eq_none, List.countP_eq_zero]

/-- The transaction commits exactly when all four checks pass. -/
theorem bookSeat_success (s : DB) (sh : Show) (userID showID : Nat) (seat : Int) (now : Nat)
    (hshow : firstShow s showID = some sh) (hu : userID ≠ 0)
    (h1 : 1 ≤ seat) (h2 : seat ≤ sh.TotalSeats)
    (hc : (countBooked s showID : Int) < sh.TotalSeats)
    (hfree : firstBookedSeat s showID seat = none) :
    BookSeatHandler s userID showID (seatRequest seat) now =
      (.booking StatusCreated (createBooking s (newBooking userID showID seat now)).1,
       (createBooking s (newBooking userID showID seat now)).2) := by
  have hid := firstShow_ID s showID sh hshow
  have hne : seat ≠ 0 := by omega
  have hrange : ¬ (seat < 1 ∨ seat > sh.TotalSeats) := by omega
  have hcount : ¬ ((countBooked s showID : Int) ≥ sh.TotalSeats) := by omega
  simp only [BookSeatHandler, ShouldBindJSON, bookSeatTx, seatRequest, hu, hne, hshow, hid,
    hrange, hcount, hfree, if_false]

/-- The store after a booking request is the old store, or the old store with
the new row when all the checks of the transaction pass. -/
theorem bookSeat_store_cases (s : DB) (userID showID : Nat) (body : BookSeatRequest)
    (now : Nat) :
    (BookSeatHandler s userID showID body now).2 = s ∨
    ∃ sh, firstShow s showID = some sh ∧ userID ≠ 0 ∧ 1 ≤ body.SeatNumber ∧
      body.SeatNumber ≤ sh.TotalSeats ∧ (countBooked s showID : Int) < sh.TotalSeats ∧
      firstBookedSeat s showID body.SeatNumber = none ∧
      (BookSeatHandler s userID showID body now).2 =
        (createBooking s (newBooking userID showID body.SeatNumber now)).2 := by
  by_cases hu : userID = 0
  · left; simp [BookSeatHandler, hu]
  by_cases h0 : body.SeatNumber = 0
  · left; simp [BookSeatHandler, ShouldBindJSON, hu, h0]
  cases hshow : firstShow s showID with
  | none => left; simp [BookSeatHandler, ShouldBindJSON, bookSeatTx, hu, h0, hshow]
  | some sh =>
    have hid := firstShow_ID s showID sh hshow
    by_cases hrange : body.SeatNumber < 1 ∨ body.SeatNumber > sh.TotalSeats
    · left; simp [BookSeatHandler, ShouldBindJSON, bookSeatTx, hu, h0, hshow, hrange]
    by_cases hcount : (countBooked s showID : Int) ≥ sh.TotalSeats
    · left
      simp only [BookSeatHandler, ShouldBindJSON, bookSeatTx, hu, h0, hshow, hrange, hid,
        hcount, if_true, if_false]
    cases hfree : firstBookedSeat s showID body.SeatNumber with
    | some e =>
      left
      simp only [BookSeatHandler, ShouldBindJSON, bookSeatTx, hu, h0, hshow, hrange, hid,
        hcount, hfree, if_true, if_false]
    | none =>
      right
      refine ⟨sh, rfl, hu, by omega, by omega, by omega, rfl, ?_⟩
      have := bookSeat_success s sh userID showID body.SeatNumber now hshow hu
        (by omega) (by omega) (by omega) hfree
      have hb : seatRequest body.SeatNumber = body := rfl
      rw [hb] at this
      rw [this]

/-- The store after a cancel request is the old store, or the old store with
the status of the addressed row set to `cancelled`. -/
theorem cancel_store_cases (s : DB) (userID bookingID : Nat) (now : Nat) :
    (CancelBookingHandler s userID bookingID now).2 = s ∨
    ∃ b, firstBooking s bookingID = some b ∧ userID ≠ 0 ∧ b.UserID = userID ∧
      b.Status = BookingStatusBooked ∧
      (CancelBookingHandler s userID bookingID now).2 =
        updateStatus s bookingID BookingStatusCancelled now := by
  by_cases hu : userID = 0
  · left; simp [CancelBookingHandler, hu]
  cases hb : firstBooking s bookingID with
  | none => left; simp [CancelBookingHandler, hu, hb]
  | some b =>
    have hid := firstBooking_ID s bookingID b hb
    by_cases ho : b.UserID ≠ userID
    · left; simp [CancelBookingHandler, hu, hb, ho]
    by_cases hst : b.Status ≠ BookingStatusBooked
    · left
      simp only [CancelBookingHandler, hu, hb, ho, if_false]
      rw [if_pos hst]
    · right
      refine ⟨b, rfl, hu, by simpa using ho, by simpa using hst, ?_⟩
      simp only [CancelBookingHandler, hu, hb, ho, hst, hid, if_false]

/-- A successful cancellation by the owner of a `booked` row. -/
theorem cancel_success (s : DB) (b : Booking) (now : Nat)
    (hfind : firstBooking s b.ID = some b) (hu : b.UserID ≠ 0)
    (hst : b.Status = BookingStatusBooked) :
    CancelBookingHandler s b.UserID b.ID now =
      (.message StatusOK "Booking cancelled successfully",
        updateStatus s b.ID BookingStatusCancelled now) := by
  simp [CancelBookingHandler, hu, hfind, hst]

/-! ## Effect of the two writes on the counts -/

theorem countBooked_create (s : DB) (userID showID : Nat) (seat : Int) (now id : Nat) :
    countBooked (createBooking s (newBooking userID showID seat now)).2 id =
      countBooked s id + if showID = id then 1 else 0 := by
  simp only [countBooked, createBooking, newBooking, List.countP_append, List.countP_singleton]
  simp [BookingStatusBooked]

theorem countBookedSeat_create (s : DB) (userID showID : Nat) (seat : Int) (now id : Nat)
    (seat' : Int) :
    countBookedSeat (createBooking s (newBooking userID showID seat now)).2 id seat' =
      countBookedSeat s id seat' + if showID = id ∧ seat = seat' then 1 else 0 := by
  simp only [countBookedSeat, createBooking, newBooking, List.countP_append,
    List.countP_singleton]
  simp [BookingStatusBooked]

theorem countBooked_update_le (s : DB) (bookingID now id : Nat) :
    countBooked (updateStatus s bookingID BookingStatusCancelled now) id ≤ countBooked s id := by
  unfold countBooked updateStatus
  apply countP_map_le
  intro x hx
  by_cases h : x.ID = bookingID
  · simp only [h, if_true, decide_eq_true_eq] at hx
    exact absurd hx.2 booked_ne_cancelled
  · simpa only [h, if_false] using hx

theorem countBookedSeat_update_le (s : DB) (bookingID now id : Nat) (seat : Int) :
    countBookedSeat (updateStatus s bookingID BookingStatusCancelled now) id seat
      ≤ countBookedSeat s id seat := by
  unfold countBookedSeat updateStatus
  apply countP_map_le
  intro x hx
  by_cases h : x.ID = bookingID
  · simp only [h, if_true, decide_eq_true_eq] at hx
    exact absurd hx.2.2 booked_ne_cancelled
  · simpa only [h, if_false] using hx

theorem countBooked_update_lt (s : DB) (b : Booking) (now : Nat)
    (hb : b ∈ s.bookings) (hst : b.Status = BookingStatusBooked) :
    countBooked (updateStatus s b.ID BookingStatusCancelled now) b.ShowID
      < countBooked s b.ShowID := by
  unfold countBooked updateStatus
  apply countP_map_lt _ _ _ b _ hb
  · simp [hst]
  · simp only [if_true, decide_eq_false_iff_not]
    exact fun h => booked_ne_cancelled h.2
  · intro x hx
    by_cases h : x.ID = b.ID
    · simp only [h, if_true, decide_eq_true_eq] at hx
      exact absurd hx.2 booked_ne_cancelled
    · simpa only [h, if_false] using hx

theorem countBookedSeat_update_lt (s : DB) (b : Booking) (now : Nat)
    (hb : b ∈ s.bookings) (hst : b.Status = BookingStatusBooked) :
    countBookedSeat (updateStatus s b.ID BookingStatusCancelled now) b.ShowID b.SeatNumber
      < countBookedSeat s b.ShowID b.SeatNumber := by
  unfold countBookedSeat updateStatus
  apply countP_map_lt _ _ _ b _ hb
  · simp [hst]
  · simp only [if_true, decide_eq_false_iff_not]
    exact fun h => booked_ne_cancelled h.2.2
  · intro x hx
    by_cases h : x.ID = b.ID
    · simp only [h, if_true, decide_eq_true_eq] at hx
      exact absurd hx.2.2 booked_ne_cancelled
    · simpa only [h, if_false] using hx

/-! ## The invariant of reachable stores -/

/-- What holds of every store reached from an empty bookings table: keys are
unique, every row has an authenticated owner and a seat of its show, and the
capacity and exclusivity bounds hold. -/
structure Inv (s : DB) : Prop where
  keys : (s.bookings.map Booking.ID).Nodup
  owner : ∀ b ∈ s.bookings, b.UserID ≠ 0
  seat : ∀ b ∈ s.bookings, ∃ sh, firstShow s b.ShowID = some sh ∧
    1 ≤ b.SeatNumber ∧ b.SeatNumber ≤ sh.TotalSeats
  capacity : ∀ id sh, firstShow s id = some sh → 0 ≤ sh.TotalSeats →
    (countBooked s id : Int) ≤ sh.TotalSeats
  exclusive : ∀ id seat, countBookedSeat s id seat ≤ 1

theorem Inv_empty (shows : List Show) : Inv { shows := shows, bookings := [] } where
  keys := List.nodup_nil
  owner := fun b hb => by cases hb
  seat := fun b hb => by cases hb
  capacity := fun id sh _ h0 => by simpa [countBooked] using h0
  exclusive := fun id seat => by simp [countBookedSeat]

theorem Inv_create (s : DB) (sh : Show) (userID showID : Nat) (seat : Int) (now : Nat)
    (hinv : Inv s) (hshow : firstShow s showID = some sh) (hu : userID ≠ 0)
    (h1 : 1 ≤ seat) (h2 : seat ≤ sh.TotalSeats)
    (hc : (countBooked s showID : Int) < sh.TotalSeats)
    (hfree : firstBookedSeat s showID seat = none) :
    Inv (createBooking s (newBooking userID showID seat now)).2 := by
  have hbk : (createBooking s (newBooking userID showID seat now)).2.bookings =
      s.bookings ++ [{ newBooking userID showID seat now with
        ID := maxBookingID s.bookings + 1 }] := rfl
  have hfs : ∀ id, firstShow (createBooking s (newBooking userID showID seat now)).2 id
      = firstShow s id := fun _ => rfl
  constructor
  · rw [hbk, List.map_append, List.nodup_append]
    refine ⟨hinv.keys, by simp, ?_⟩
    intro a ha ha'
    simp only [List.map_cons, List.map_nil, List.mem_singleton] at ha'
    obtain ⟨x, hx, rfl⟩ := List.mem_map.1 ha
    have := le_maxBookingID s.bookings x hx
    omega
  · intro b hb
    rw [hbk, List.mem_append, List.mem_singleton] at hb
    rcases hb with hb | rfl
    · exact hinv.owner b hb
    · exact hu
  · intro b hb
    rw [hbk, List.mem_append, List.mem_singleton] at hb
    rcases hb with hb | rfl
    · simpa only [hfs] using hinv.seat b hb
    · exact ⟨sh, by rw [hfs]; exact hshow, h1, h2⟩
  · intro id sh' hsh' h0
    rw [hfs] at hsh'
    rw [countBooked_create]
    by_cases hid : showID = id
    · subst hid
      rw [hshow] at hsh'
      cases hsh'
      simp only [if_true]
      push_cast
      omega
    · simp only [hid, if_false, Nat.add_zero]
      exact hinv.capacity id sh' hsh' h0
  · intro id seat'
    rw [countBookedSeat_create]
    by_cases hid : showID = id ∧ seat = seat'
    · obtain ⟨rfl, rfl⟩ := hid
      have := (firstBookedSeat_none_iff s showID seat).1 hfree
      simp [this]
    · simp only [hid, if_false, Nat.add_zero]
      exact hinv.exclusive id seat'

theorem Inv_update (s : DB) (bookingID now : Nat) (hinv : Inv s) :
    Inv (updateStatus s bookingID BookingStatusCancelled now) := by
  have hfs : ∀ id, firstShow (updateStatus s bookingID BookingStatusCancelled now) id
      = firstShow s id := fun _ => rfl
  have hmem : ∀ b ∈ (updateStatus s bookingID BookingStatusCancelled now).bookings,
      ∃ x ∈ s.bookings, b.ID = x.ID ∧ b.UserID = x.UserID ∧ b.ShowID = x.ShowID ∧
        b.SeatNumber = x.SeatNumber := by
    intro b hb
    obtain ⟨x, hx, rfl⟩ := List.mem_map.1 hb
    refine ⟨x, hx, ?_⟩
    by_cases h : x.ID = bookingID <;> simp [h]
  constructor
  · have : (updateStatus s bookingID BookingStatusCancelled now).bookings.map Booking.ID
        = s.bookings.map Booking.ID := by
      simp only [updateStatus, List.map_map]
      apply List.map_congr_left
      intro x _
      by_cases h : x.ID = bookingID <;> simp [h]
    rw [this]
    exact hinv.keys
  · intro b hb
    obtain ⟨x, hx, _, h2, _, _⟩ := hmem b hb
    rw [h2]
    exact hinv.owner x hx
  · intro b hb
    obtain ⟨x, hx, _, _, h3, h4⟩ := hmem b hb
    rw [h3, h4, hfs]
    exact hinv.seat x hx
  · intro id sh hsh h0
    rw [hfs] at hsh
    have := countBooked_update_le s bookingID now id
    have := hinv.capacity id sh hsh h0
    omega
  · intro id seat
    exact le_trans (countBookedSeat_update_le s bookingID now id seat) (hinv.exclusive id seat)

theorem step_shows (s : DB) (c : Call) : (step s c).shows = s.shows := by
  cases c with
  | reserve userID showID body now =>
    rcases bookSeat_store_cases s userID showID body now with h | ⟨_, _, _, _, _, _, _, h⟩
    · simp only [step, h]
    · simp only [step, h]; rfl
  | cancel userID bookingID now =>
    rcases cancel_store_cases s userID bookingID now with h | ⟨_, _, _, _, _, h⟩
    · simp only [step, h]
    · simp only [step, h]; rfl

theorem Inv_step (s : DB) (c : Call) (hinv : Inv s) : Inv (step s c) := by
  cases c with
  | reserve userID showID body now =>
    rcases bookSeat_store_cases s userID showID body now with
      h | ⟨sh, hshow, hu, h1, h2, hc, hfree, h⟩
    · simp only [step, h]; exact hinv
    · simp only [step, h]
      exact Inv_create s sh userID showID body.SeatNumber now hinv hshow hu h1 h2 hc hfree
  | cancel userID bookingID now =>
    rcases cancel_store_cases s userID bookingID now with h | ⟨_, _, _, _, _, h⟩
    · simp only [step, h]; exact hinv
    · simp only [step, h]
      exact Inv_update s bookingID now hinv

theorem run_shows (s : DB) (calls : List Call) : (run s calls).shows = s.shows := by
  induction calls generalizing s with
  | nil => rfl
  | cons c cs ih =>
    have : run s (c :: cs) = run (step s c) cs := rfl
    rw [this, ih, step_shows]

theorem Inv_run (s : DB) (calls : List Call) (hinv : Inv s) : Inv (run s calls) := by
  induction calls generalizing s with
  | nil => exact hinv
  | cons c cs ih =>
    have : run s (c :: cs) = run (step s c) cs := rfl
    rw [this]
    exact ih (step s c) (Inv_step s c hinv)

theorem eq_of_countP_le_one {α : Type} (p : α → Bool) (l : List α) (x y : α)
    (hc : l.countP p ≤ 1) (hx : x ∈ l) (hy : y ∈ l) (hpx : p x = true) (hpy : p y = true)
    (hne : x ≠ y) : False := by
  induction l with
  | nil => cases hx
  | cons a l ih =>
    rw [List.countP_cons] at hc
    have hpos : ∀ z ∈ l, p z = true → 0 < l.countP p :=
      fun z hz hpz => List.countP_pos_iff.2 ⟨z, hz, hpz⟩
    rcases List.mem_cons.1 hx with rfl | hx'
    · rcases List.mem_cons.1 hy with rfl | hy'
      · exact hne rfl
      · have := hpos y hy' hpy
        rw [if_pos hpx] at hc
        omega
    · rcases List.mem_cons.1 hy with rfl | hy'
      · have := hpos x hx' hpx
        rw [if_pos hpy] at hc
        omega
      · exact ih (by omega) hx' hy'

theorem firstBooking_update (s : DB) (bookingID now id : Nat) (status : BookingStatus) :
    firstBooking (updateStatus s bookingID status now) id =
      (firstBooking s id).map (fun b =>
        if b.ID = bookingID then { b with Status := status, UpdatedAt := now } else b) := by
  unfold firstBooking updateStatus
  rw [List.find?_map]
  congr 2
  funext x
  by_cases h : x.ID = bookingID <;> simp [h]

/-- The relation between a row before and after the cancellation of `b`: the
row `b` keeps its key, owner, show, seat and creation stamp and becomes
`cancelled`; any other row is unchanged. -/
def CancelledFrom (b x y : Booking) : Prop :=
  if x = b then
    y.ID = b.ID ∧ y.UserID = b.UserID ∧ y.ShowID = b.ShowID ∧
      y.SeatNumber = b.SeatNumber ∧ y.CreatedAt = b.CreatedAt ∧
      y.Status = BookingStatusCancelled
  else y = x

instance (b x y : Booking) : Decidable (CancelledFrom b x y) := by
  unfold CancelledFrom; infer_instance

/-! ## Counting the booked seats of a show -/

/-- The seat numbers of the `booked` rows of a show, in table order. -/
def bookedSeats (s : DB) (showID : Nat) : List Int :=
  (s.bookings.filter
    (fun b => decide (b.ShowID = showID ∧ b.Status = BookingStatusBooked))).map
      Booking.SeatNumber

theorem bookedSeats_length (s : DB) (showID : Nat) :
    (bookedSeats s showID).length = countBooked s showID := by
  unfold bookedSeats countBooked
  rw [List.length_map, List.countP_eq_length_filter]

theorem bookedSeats_count (s : DB) (showID : Nat) (seat : Int) :
    (bookedSeats s showID).count seat = countBookedSeat s showID seat := by
  unfold bookedSeats countBookedSeat
  rw [List.count_eq_countP, List.countP_map, List.countP_filter]
  apply List.countP_congr
  intro b _
  simp only [Function.comp_apply, Bool.and_eq_true, beq_iff_eq, decide_eq_true_eq]
  constructor
  · rintro ⟨h, h1, h2⟩
    exact ⟨h1, h, h2⟩
  · rintro ⟨h1, h, h2⟩
    exact ⟨h, h1, h2⟩

theorem mem_bookedSeats (s : DB) (showID : Nat) (seat : Int) :
    seat ∈ bookedSeats s showID ↔
      ∃ b ∈ s.bookings, b.ShowID = showID ∧ b.SeatNumber = seat ∧
        b.Status = BookingStatusBooked := by
  unfold bookedSeats
  simp only [List.mem_map, List.mem_filter, decide_eq_true_eq]
  constructor
  · rintro ⟨b, ⟨hb, h1, h2⟩, h3⟩
    exact ⟨b, hb, h1, h3, h2⟩
  · rintro ⟨b, hb, h1, h3, h2⟩
    exact ⟨b, ⟨hb, h1, h2⟩, h3⟩

/-- A list of distinct integers of `1..n` that misses one of them has fewer
than `n` entries. -/
theorem length_lt_of_nodup_range (l : List Int) (n seat : Int)
    (hnd : l.Nodup) (hrange : ∀ x ∈ l, 1 ≤ x ∧ x ≤ n)
    (h1 : 1 ≤ seat) (h2 : seat ≤ n) (hfree : seat ∉ l) :
    (l.length : Int) < n := by
  have hsub : l.toFinset ⊆ (Finset.Icc 1 n).erase seat := by
    intro x hx
    rw [List.mem_toFinset] at hx
    rw [Finset.mem_erase, Finset.mem_Icc]
    exact ⟨fun h => hfree (h ▸ hx), hrange x hx⟩
  have hcard := Finset.card_le_card hsub
  rw [List.toFinset_card_of_nodup hnd,
    Finset.card_erase_of_mem (Finset.mem_Icc.2 ⟨h1, h2⟩), Int.card_Icc] at hcard
  omega

/-- In a store that satisfies the invariant, a seat of `1..TotalSeats` that no
`booked` row holds leaves the booked count of the show below `TotalSeats`. -/
theorem count_lt_of_free_seat (s : DB) (sh : Show) (showID : Nat) (seat : Int)
    (hinv : Inv s) (hshow : firstShow s showID = some sh)
    (h1 : 1 ≤ seat) (h2 : seat ≤ sh.TotalSeats)
    (hfree : countBookedSeat s showID seat = 0) :
    (countBooked s showID : Int) < sh.TotalSeats := by
  rw [← bookedSeats_length]
  apply length_lt_of_nodup_range (bookedSeats s showID) sh.TotalSeats seat _ _ h1 h2
  · rw [← List.count_eq_zero, bookedSeats_count]
    exact hfree
  · rw [List.nodup_iff_count_le_one]
    intro a
    rw [bookedSeats_count]
    exact hinv.exclusive showID a
  · intro x hx
    obtain ⟨b, hb, hbs, hbn, _⟩ := (mem_bookedSeats s showID x).1 hx
    obtain ⟨sh', hsh', hr1, hr2⟩ := hinv.seat b hb
    rw [hbs, hshow] at hsh'
    cases hsh'
    rw [← hbn]
    exact ⟨hr1, hr2⟩

/-- The handler answers "Show is fully booked" only when the seat is within
`1..TotalSeats` of the addressed show and the booked count has reached
`TotalSeats`. -/
theorem show_full_only_if (s : DB) (userID showID : Nat) (seat : Int) (now : Nat)
    (h : (BookSeatHandler s userID showID (seatRequest seat) now).1
      = .error StatusBadRequest "Show is fully booked") :
    ∃ sh, firstShow s showID = some sh ∧ 1 ≤ seat ∧ seat ≤ sh.TotalSeats ∧
      (countBooked s showID : Int) ≥ sh.TotalSeats := by
  by_cases hu : userID = 0
  · simp [BookSeatHandler, hu, StatusUnauthorized, StatusBadRequest] at h
  by_cases h0 : seat = 0
  · simp only [BookSeatHandler, ShouldBindJSON, seatRequest, hu, h0, if_true, if_false] at h
    exact absurd h (by decide)
  cases hshow : firstShow s showID with
  | none =>
    simp [BookSeatHandler, ShouldBindJSON, bookSeatTx, seatRequest, hu, h0, hshow] at h
  | some sh =>
    have hid := firstShow_ID s showID sh hshow
    by_cases hrange : seat < 1 ∨ seat > sh.TotalSeats
    · simp [BookSeatHandler, ShouldBindJSON, bookSeatTx, seatRequest, hu, h0, hshow,
        hrange] at h
    by_cases hcount : (countBooked s showID : Int) ≥ sh.TotalSeats
    · exact ⟨sh, rfl, by omega, by omega, hcount⟩
    · cases hfree : firstBookedSeat s showID seat with
      | some e =>
        simp only [BookSeatHandler, ShouldBindJSON, bookSeatTx, seatRequest, hu, h0, hshow,
          hrange, hid, hcount, hfree, if_false] at h
        exact absurd h (by decide)
      | none =>
        simp only [BookSeatHandler, ShouldBindJSON, bookSeatTx, seatRequest, hu, h0, hshow,
          hrange, hid, hcount, hfree, if_false] at h
        cases h

/-! ## Scenario stores -/

/-- One show with a single seat, no bookings. -/
def oneSeatShow : DB := { shows := [{ ID := 1, TotalSeats := 1 }], bookings := [] }

/-- One show with ten seats, no bookings. -/
def tenSeatShow : DB := { shows := [{ ID := 1, TotalSeats := 10 }], bookings := [] }

/-- Two users ask for seat 1 of the one-seat show, then the first one cancels. -/
def twoAskOneSeat : List Call :=
  [.reserve 7 1 (seatRequest 1) 100, .reserve 8 1 (seatRequest 1) 101, .cancel 7 1 102]

/-- Scenario A after its first step: seat 1 of the one-seat show is booked by
user 7. -/
def oneSeatTaken : DB := (BookSeatHandler oneSeatShow 7 1 (seatRequest 1) 100).2

/-- Scenario B after its first two steps: both seats of a two-seat show are
booked, by users 7 and 8. -/
def twoSeatsTaken : DB :=
  run { shows := [{ ID := 1, TotalSeats := 2 }], bookings := [] }
    [.reserve 7 1 (seatRequest 1) 100, .reserve 8 1 (seatRequest 2) 101]

/-- A ten-seat show in which seat 3 is booked by user 7. -/
def seatThreeTaken : DB := (BookSeatHandler tenSeatShow 7 1 (seatRequest 3) 100).2

/-- The row of `seatThreeTaken`. -/
def seatThreeRow : Booking :=
  { ID := 1, UserID := 7, ShowID := 1, SeatNumber := 3, Status := BookingStatusBooked,
    CreatedAt := 100, UpdatedAt := 100 }

/-- One show with two seats, no bookings. -/
def twoSeatShow : DB := { shows := [{ ID := 1, TotalSeats := 2 }], bookings := [] }

/-- User 7 books seat 1 and cancels it, then user 8 books seat 1 again. -/
def seatOneReused : List Call :=
  [.reserve 7 1 (seatRequest 1) 100, .cancel 7 1 101, .reserve 8 1 (seatRequest 1) 102]

/-! ## Claims -/

/-- C1 (capacity, I1/P1): for every show of the store with a total seat count
`N ≥ 0`, and every finite sequence of booking and cancel requests served one
after another from a store with no bookings, after each request (after the
first `k` requests, for every `k`) the number of `booked` rows of that show is
at most `N`. -/
theorem capacity_invariant (shows : List Show) (sh : Show)
    (hkeys : (shows.map Show.ID).Nodup) (hsh : sh ∈ shows) (hN : 0 ≤ sh.TotalSeats)
    (calls : List Call) (k : Nat) :
    (countBooked (run { shows := shows, bookings := [] } (calls.take k)) sh.ID : Int)
      ≤ sh.TotalSeats := by
  have hinv := Inv_run _ (calls.take k) (Inv_empty shows)
  apply hinv.capacity sh.ID sh _ hN
  have hfs : firstShow (run { shows := shows, bookings := [] } (calls.take k)) sh.ID
      = firstShow { shows := shows, bookings := [] } sh.ID := by
    unfold firstShow
    rw [run_shows]
  rw [hfs]
  exact firstShow_of_mem { shows := shows, bookings := [] } sh hkeys hsh

/-- Witness of C1: the one-seat show after two users asked for its seat. -/
theorem capacity_invariant_witness :
    (oneSeatShow.shows.map Show.ID).Nodup ∧
    ({ ID := 1, TotalSeats := 1 } : Show) ∈ oneSeatShow.shows ∧
    (0 : Int) ≤ (1 : Int) ∧
    (countBooked (run oneSeatShow (twoAskOneSeat.take 2)) 1 : Int) ≤ 1 :=
  ⟨by decide, by decide, by decide,
    capacity_invariant oneSeatShow.shows { ID := 1, TotalSeats := 1 }
      (by decide) (by decide) (by decide) twoAskOneSeat 2⟩

/-- C2 (exclusivity, I2/P2): for every finite sequence of booking and cancel
requests served one after another from a store with no bookings, after each
request and for every show and seat number, at most one row with that show and
seat has status `booked`: the count of such rows is at most one, and any two
such rows are the same row.  Cancelled rows are not counted. -/
theorem exclusivity_invariant (shows : List Show) (calls : List Call) (k : Nat)
    (showID : Nat) (seat : Int) :
    countBookedSeat (run { shows := shows, bookings := [] } (calls.take k)) showID seat ≤ 1 ∧
    ∀ b₁ ∈ (run { shows := shows, bookings := [] } (calls.take k)).bookings,
    ∀ b₂ ∈ (run { shows := shows, bookings := [] } (calls.take k)).bookings,
      b₁.ShowID = showID → b₁.SeatNumber = seat → b₁.Status = BookingStatusBooked →
      b₂.ShowID = showID → b₂.SeatNumber = seat → b₂.Status = BookingStatusBooked →
      b₁ = b₂ := by
  have hinv := Inv_run _ (calls.take k) (Inv_empty shows)
  refine ⟨hinv.exclusive showID seat, ?_⟩
  intro b₁ h₁ b₂ h₂ ha hb hc ha' hb' hc'
  by_contra hne
  exact eq_of_countP_le_one _ _ b₁ b₂ (hinv.exclusive showID seat) h₁ h₂
    (by simp [ha, hb, hc]) (by simp [ha', hb', hc']) hne

/-- Witness of C2: after two users asked for the seat of the one-seat show,
exactly one `booked` row holds it. -/
theorem exclusivity_invariant_witness :
    countBookedSeat (run oneSeatShow (twoAskOneSeat.take 2)) 1 1 = 1 ∧
    countBookedSeat (run oneSeatShow (twoAskOneSeat.take 2)) 1 1 ≤ 1 :=
  ⟨by decide, (exclusivity_invariant oneSeatShow.shows twoAskOneSeat 2 1 1).1⟩

/-- C3 (booking succeeds): for every store with unique keys, every show of it,
every authenticated user and every seat number with `1 ≤ seat ≤ TotalSeats`,
if fewer than `TotalSeats` rows of the show are `booked` and no `booked` row
holds that seat, the handler answers 201 with a booking that carries exactly
the given user, the key of the show and the seat, with status `booked`; the new
store is the old one with that single row appended under a fresh key, all
earlier rows and the shows being unchanged. -/
theorem reserve_success (s : DB) (sh : Show) (userID : Nat) (seat : Int) (now : Nat)
    (hkeys : PrimaryKeys s) (hsh : sh ∈ s.shows) (hu : userID ≠ 0)
    (h1 : 1 ≤ seat) (h2 : seat ≤ sh.TotalSeats)
    (hc : (countBooked s sh.ID : Int) < sh.TotalSeats)
    (hfree : ∀ b ∈ s.bookings,
      ¬ (b.ShowID = sh.ID ∧ b.SeatNumber = seat ∧ b.Status = BookingStatusBooked)) :
    ∃ b : Booking,
      BookSeatHandler s userID sh.ID (seatRequest seat) now =
        (.booking StatusCreated b, { shows := s.shows, bookings := s.bookings ++ [b] }) ∧
      b.UserID = userID ∧ b.ShowID = sh.ID ∧ b.SeatNumber = seat ∧
      b.Status = BookingStatusBooked ∧ b.CreatedAt = now ∧
      ∀ x ∈ s.bookings, x.ID ≠ b.ID := by
  have hshow := firstShow_of_mem s sh hkeys.1 hsh
  have hnone : firstBookedSeat s sh.ID seat = none := by
    unfold firstBookedSeat
    rw [List.find?_eq_none]
    intro x hx
    simpa using hfree x hx
  refine ⟨(createBooking s (newBooking userID sh.ID seat now)).1,
    bookSeat_success s sh userID sh.ID seat now hshow hu h1 h2 hc hnone,
    rfl, rfl, rfl, rfl, rfl, ?_⟩
  intro x hx hxe
  have := le_maxBookingID s.bookings x hx
  have hid : (createBooking s (newBooking userID sh.ID seat now)).1.ID
      = maxBookingID s.bookings + 1 := rfl
  omega

/-- Witness of C3: user 7 books seat 3 of the empty ten-seat show. -/
theorem reserve_success_witness :
    PrimaryKeys tenSeatShow ∧
    ∃ b : Booking,
      BookSeatHandler tenSeatShow 7 1 (seatRequest 3) 100 =
        (.booking StatusCreated b,
          { shows := tenSeatShow.shows, bookings := tenSeatShow.bookings ++ [b] }) ∧
      b.UserID = 7 ∧ b.ShowID = 1 ∧ b.SeatNumber = 3 ∧
      b.Status = BookingStatusBooked ∧ b.CreatedAt = 100 ∧
      ∀ x ∈ tenSeatShow.bookings, x.ID ≠ b.ID :=
  ⟨by decide,
    reserve_success tenSeatShow { ID := 1, TotalSeats := 10 } 7 3 100
      (by decide) (by decide) (by decide) (by decide) (by decide) (by decide)
      (by intro b hb; cases hb)⟩

/-- C4, as stated, fails (Scenario A and Scenario B): with seat 1 of the
one-seat show booked by user 7, the request of user 8 for seat 1 is answered
"Show is fully booked", not "Seat already booked"; likewise with both seats of
a two-seat show booked, the request of user 9 for seat 1. -/
theorem occupied_seat_counterexample :
    (PrimaryKeys oneSeatTaken ∧
      ({ ID := 1, TotalSeats := 1 } : Show) ∈ oneSeatTaken.shows ∧
      (∃ b ∈ oneSeatTaken.bookings,
        b.ShowID = 1 ∧ b.SeatNumber = 1 ∧ b.Status = BookingStatusBooked) ∧
      BookSeatHandler oneSeatTaken 8 1 (seatRequest 1) 101
        = (.error StatusBadRequest "Show is fully booked", oneSeatTaken) ∧
      (BookSeatHandler oneSeatTaken 8 1 (seatRequest 1) 101).1
        ≠ .error StatusBadRequest "Seat already booked") ∧
    (PrimaryKeys twoSeatsTaken ∧
      ({ ID := 1, TotalSeats := 2 } : Show) ∈ twoSeatsTaken.shows ∧
      (∃ b ∈ twoSeatsTaken.bookings,
        b.ShowID = 1 ∧ b.SeatNumber = 1 ∧ b.Status = BookingStatusBooked) ∧
      BookSeatHandler twoSeatsTaken 9 1 (seatRequest 1) 102
        = (.error StatusBadRequest "Show is fully booked", twoSeatsTaken) ∧
      (BookSeatHandler twoSeatsTaken 9 1 (seatRequest 1) 102).1
        ≠ .error StatusBadRequest "Seat already booked") := by
  decide

/-- C4 as amended: for every store with unique keys, every show of it, every
authenticated user and every seat number with `1 ≤ seat ≤ TotalSeats` that a
`booked` row already holds, the request fails and leaves the store unchanged;
the answer is "Seat already booked" when fewer than `TotalSeats` rows of the
show are `booked`, and "Show is fully booked" when the booked count has reached
`TotalSeats`, because the count check runs before the seat check. -/
theorem reserve_occupied_seat (s : DB) (sh : Show) (userID : Nat) (seat : Int) (now : Nat)
    (b : Booking) (hkeys : PrimaryKeys s) (hsh : sh ∈ s.shows) (hu : userID ≠ 0)
    (h1 : 1 ≤ seat) (h2 : seat ≤ sh.TotalSeats) (hb : b ∈ s.bookings)
    (hbs : b.ShowID = sh.ID ∧ b.SeatNumber = seat ∧ b.Status = BookingStatusBooked) :
    BookSeatHandler s userID sh.ID (seatRequest seat) now =
      (if (countBooked s sh.ID : Int) < sh.TotalSeats
        then .error StatusBadRequest "Seat already booked"
        else .error StatusBadRequest "Show is fully booked", s) := by
  have hshow := firstShow_of_mem s sh hkeys.1 hsh
  have hne : seat ≠ 0 := by omega
  have hrange : ¬ (seat < 1 ∨ seat > sh.TotalSeats) := by omega
  by_cases hc : (countBooked s sh.ID : Int) < sh.TotalSeats
  · have hcount : ¬ ((countBooked s sh.ID : Int) ≥ sh.TotalSeats) := by omega
    cases hfree : firstBookedSeat s sh.ID seat with
    | none =>
      unfold firstBookedSeat at hfree
      rw [List.find?_eq_none] at hfree
      exact absurd (by simpa using hbs) (hfree b hb)
    | some e =>
      simp only [BookSeatHandler, ShouldBindJSON, bookSeatTx, seatRequest, hu, hne, hshow,
        hrange, hcount, hfree, hc, if_true, if_false]
  · have hcount : (countBooked s sh.ID : Int) ≥ sh.TotalSeats := by omega
    simp only [BookSeatHandler, ShouldBindJSON, bookSeatTx, seatRequest, hu, hne, hshow,
      hrange, hcount, hc, if_true, if_false]

/-- Witness of amended C4: seat 3 of the ten-seat show is held by user 7 and
user 8 asks for it. -/
theorem reserve_occupied_seat_witness :
    PrimaryKeys seatThreeTaken ∧ seatThreeRow ∈ seatThreeTaken.bookings ∧
    BookSeatHandler seatThreeTaken 8 1 (seatRequest 3) 101 =
      (if (countBooked seatThreeTaken 1 : Int) < 10
        then .error StatusBadRequest "Seat already booked"
        else .error StatusBadRequest "Show is fully booked", seatThreeTaken) :=
  ⟨by decide, by decide,
    reserve_occupied_seat seatThreeTaken { ID := 1, TotalSeats := 10 } 8 3 101 seatThreeRow
      (by decide) (by decide) (by decide) (by decide) (by decide) (by decide) (by decide)⟩

/-- C5, as stated, fails (Scenario C): seat number 0 on the ten-seat show is
outside `1..TotalSeats`, yet the answer is the validation error of the
`required` tag, not "Invalid seat number". -/
theorem invalid_seat_counterexample :
    PrimaryKeys tenSeatShow ∧
    ({ ID := 1, TotalSeats := 10 } : Show) ∈ tenSeatShow.shows ∧
    IsGoInt 0 ∧
    ((0 : Int) < 1 ∨ (0 : Int) > 10) ∧
    BookSeatHandler tenSeatShow 7 1 (seatRequest 0) 100
      = (.error StatusBadRequest requiredTagMessage, tenSeatShow) ∧
    (BookSeatHandler tenSeatShow 7 1 (seatRequest 0) 100).1
      ≠ .error StatusBadRequest "Invalid seat number" := by
  decide

/-- C5 as amended: for every store with unique keys, every show of it, every
authenticated user and every seat number that a Go `int` holds (the body
decoded into `BookSeatRequest`), independently of the bookings: (1) when the
seat number is not 0, the handler answers "Invalid seat number" if and only if
`seat < 1` or `seat > TotalSeats`; (2) seat number 0 is rejected by request
binding before the transaction starts, with status 400 and the validation
message of the `required` tag, the store being unchanged; (3) the transaction
callback itself fails with "Invalid seat number" if and only if `seat < 1` or
`seat > TotalSeats`.  Nothing is stated for a `seat_number` outside the Go
`int` range, which never decodes into a request. -/
theorem invalid_seat_iff (s : DB) (sh : Show) (userID : Nat) (seat : Int) (now : Nat)
    (hkeys : PrimaryKeys s) (hsh : sh ∈ s.shows) (hu : userID ≠ 0)
    (_hseat : IsGoInt seat) :
    (seat ≠ 0 →
      ((BookSeatHandler s userID sh.ID (seatRequest seat) now).1
          = .error StatusBadRequest "Invalid seat number"
        ↔ (seat < 1 ∨ seat > sh.TotalSeats))) ∧
    (seat = 0 →
      BookSeatHandler s userID sh.ID (seatRequest seat) now
        = (.error StatusBadRequest requiredTagMessage, s)) ∧
    ((∃ e, bookSeatTx s userID sh.ID (seatRequest seat) now = .error e ∧
          e.msg = "Invalid seat number")
        ↔ (seat < 1 ∨ seat > sh.TotalSeats)) := by
  have hshow := firstShow_of_mem s sh hkeys.1 hsh
  have htx : (∃ e, bookSeatTx s userID sh.ID (seatRequest seat) now = .error e ∧
      e.msg = "Invalid seat number") ↔ (seat < 1 ∨ seat > sh.TotalSeats) := by
    by_cases hrange : seat < 1 ∨ seat > sh.TotalSeats
    · simp [bookSeatTx, seatRequest, hshow, hrange]
    · by_cases hcount : (countBooked s sh.ID : Int) ≥ sh.TotalSeats
      · simp only [bookSeatTx, seatRequest, hshow, hrange, hcount, if_true, if_false]
        simp
      · cases hfree : firstBookedSeat s sh.ID seat with
        | some e =>
          simp only [bookSeatTx, seatRequest, hshow, hrange, hcount, hfree, if_false]
          simp
        | none =>
          simp only [bookSeatTx, seatRequest, hshow, hrange, hcount, hfree, if_false]
          simp
  refine ⟨?_, ?_, htx⟩
  · intro hne
    rw [← htx]
    simp only [BookSeatHandler, ShouldBindJSON, seatRequest, hu, hne, if_false]
    cases hres : bookSeatTx s userID sh.ID { SeatNumber := seat } now with
    | error e =>
      cases e
      simp [StatusBadRequest]
    | ok r => simp
  · intro h0
    simp [BookSeatHandler, ShouldBindJSON, seatRequest, hu, h0]

/-- Witness of amended C5: seat 11 of the ten-seat show. -/
theorem invalid_seat_iff_witness :
    PrimaryKeys tenSeatShow ∧ IsGoInt 11 ∧
    (((11 : Int) ≠ 0 →
      ((BookSeatHandler tenSeatShow 7 1 (seatRequest 11) 100).1
          = .error StatusBadRequest "Invalid seat number"
        ↔ ((11 : Int) < 1 ∨ (11 : Int) > 10))) ∧
    ((11 : Int) = 0 →
      BookSeatHandler tenSeatShow 7 1 (seatRequest 11) 100
        = (.error StatusBadRequest requiredTagMessage, tenSeatShow)) ∧
    ((∃ e, bookSeatTx tenSeatShow 7 1 (seatRequest 11) 100 = .error e ∧
          e.msg = "Invalid seat number")
        ↔ ((11 : Int) < 1 ∨ (11 : Int) > 10))) :=
  ⟨by decide, by decide,
    invalid_seat_iff tenSeatShow { ID := 1, TotalSeats := 10 } 7 11 100
      (by decide) (by decide) (by decide) (by decide)⟩

/-- C7 (ownership, P3): for every store with unique keys, every booking `b` of
it, whatever its status, and every authenticated caller other than the owner
of `b`, the cancel request for `b` is answered 403 "You are not allowed to
cancel this booking" and the store, with every booking and the status of `b`,
is left unchanged. -/
theorem cancel_forbidden (s : DB) (b : Booking) (caller now : Nat)
    (hkeys : PrimaryKeys s) (hb : b ∈ s.bookings) (hc : caller ≠ 0)
    (hne : caller ≠ b.UserID) :
    CancelBookingHandler s caller b.ID now =
      (.error StatusForbidden "You are not allowed to cancel this booking", s) := by
  have hfind := firstBooking_of_mem s b hkeys.2 hb
  have hne' : b.UserID ≠ caller := fun h => hne h.symm
  simp [CancelBookingHandler, hc, hfind, hne']

/-- Witness of C7 (Scenario E): user 8 tries to cancel the booking of user 7. -/
theorem cancel_forbidden_witness :
    PrimaryKeys seatThreeTaken ∧ seatThreeRow ∈ seatThreeTaken.bookings ∧
    (8 : Nat) ≠ seatThreeRow.UserID ∧
    CancelBookingHandler seatThreeTaken 8 seatThreeRow.ID 200 =
      (.error StatusForbidden "You are not allowed to cancel this booking", seatThreeTaken) :=
  ⟨by decide, by decide, by decide,
    cancel_forbidden seatThreeTaken seatThreeRow 8 200
      (by decide) (by decide) (by decide) (by decide)⟩

/-- C8 (no double cancel, P4): for every store with unique keys and every
booking `b` of it with an authenticated owner: if `b` is `cancelled`, the cancel
request of its owner is answered 400 "Booking is not in booked status" and the
store is unchanged; and if `b` is `booked`, the first cancel request of its
owner succeeds and a second one right after it is answered 400 "Booking is not
in booked status", leaving the store as the first one left it. -/
theorem cancel_twice (s : DB) (b : Booking) (now now' : Nat)
    (hkeys : PrimaryKeys s) (hb : b ∈ s.bookings) (hu : b.UserID ≠ 0) :
    (b.Status = BookingStatusCancelled →
      CancelBookingHandler s b.UserID b.ID now =
        (.error StatusBadRequest "Booking is not in booked status", s)) ∧
    (b.Status = BookingStatusBooked →
      (CancelBookingHandler s b.UserID b.ID now).1 =
        .message StatusOK "Booking cancelled successfully" ∧
      CancelBookingHandler (CancelBookingHandler s b.UserID b.ID now).2 b.UserID b.ID now' =
        (.error StatusBadRequest "Booking is not in booked status",
          (CancelBookingHandler s b.UserID b.ID now).2)) := by
  have hfind := firstBooking_of_mem s b hkeys.2 hb
  constructor
  · intro hst
    have hnb : b.Status ≠ BookingStatusBooked := by
      rw [hst]; exact booked_ne_cancelled
    simp only [CancelBookingHandler, hu, hfind, if_false, ne_eq, not_true_eq_false]
    rw [if_pos hnb]
  · intro hst
    rw [cancel_success s b now hfind hu hst]
    refine ⟨rfl, ?_⟩
    have hfind' := firstBooking_update s b.ID now b.ID BookingStatusCancelled
    rw [hfind] at hfind'
    simp only [Option.map_some', if_true] at hfind'
    simp only [CancelBookingHandler, hu, hfind', if_false, ne_eq, not_true_eq_false]
    rw [if_pos booked_ne_cancelled]

/-- Witness of C8: the owner cancels the booking of seat 3 twice. -/
theorem cancel_twice_witness :
    PrimaryKeys seatThreeTaken ∧ seatThreeRow ∈ seatThreeTaken.bookings ∧
    seatThreeRow.Status = BookingStatusBooked ∧
    (CancelBookingHandler seatThreeTaken 7 1 200).1 =
        .message StatusOK "Booking cancelled successfully" ∧
    CancelBookingHandler (CancelBookingHandler seatThreeTaken 7 1 200).2 7 1 201 =
        (.error StatusBadRequest "Booking is not in booked status",
          (CancelBookingHandler seatThreeTaken 7 1 200).2) :=
  ⟨by decide, by decide, by decide,
    (cancel_twice seatThreeTaken seatThreeRow 200 201
      (by decide) (by decide) (by decide)).2 (by decide)⟩

/-- C9 (cancel succeeds, frame): for every store with unique keys and every
`booked` booking `b` of it with an authenticated owner, the cancel request of
the owner is answered 200; in the new store the shows are unchanged and the
bookings are, position by position, those of the old store, where the row `b`
has status `cancelled` with its key, owner, show, seat number and creation
stamp unchanged and every other row is unchanged; no row is added or removed. -/
theorem cancel_frame (s : DB) (b : Booking) (now : Nat)
    (hkeys : PrimaryKeys s) (hb : b ∈ s.bookings) (hu : b.UserID ≠ 0)
    (hst : b.Status = BookingStatusBooked) :
    ∃ s' : DB,
      CancelBookingHandler s b.UserID b.ID now =
        (.message StatusOK "Booking cancelled successfully", s') ∧
      s'.shows = s.shows ∧
      s'.bookings.length = s.bookings.length ∧
      List.Forall₂ (CancelledFrom b) s.bookings s'.bookings := by
  have hfind := firstBooking_of_mem s b hkeys.2 hb
  refine ⟨updateStatus s b.ID BookingStatusCancelled now,
    cancel_success s b now hfind hu hst, rfl, by simp [updateStatus], ?_⟩
  simp only [updateStatus]
  rw [List.forall₂_map_right_iff, List.forall₂_same]
  intro x hx
  unfold CancelledFrom
  by_cases hxb : x = b
  · subst hxb
    simp
  · have hid : x.ID ≠ b.ID := by
      intro h
      have hx' := firstBooking_of_mem s x hkeys.2 hx
      rw [h, hfind] at hx'
      exact hxb (Option.some.inj hx').symm
    simp [hxb, hid]

/-- Witness of C9: the owner cancels the booking of seat 3. -/
theorem cancel_frame_witness :
    PrimaryKeys seatThreeTaken ∧ seatThreeRow ∈ seatThreeTaken.bookings ∧
    ∃ s' : DB,
      CancelBookingHandler seatThreeTaken seatThreeRow.UserID seatThreeRow.ID 200 =
        (.message StatusOK "Booking cancelled successfully", s') ∧
      s'.shows = seatThreeTaken.shows ∧
      s'.bookings.length = seatThreeTaken.bookings.length ∧
      List.Forall₂ (CancelledFrom seatThreeRow) seatThreeTaken.bookings s'.bookings :=
  ⟨by decide, by decide,
    cancel_frame seatThreeTaken seatThreeRow 200
      (by decide) (by decide) (by decide) (by decide)⟩

/-- C10 (re-booking after cancellation, Scenario D): in every store reached
from a store with no bookings by booking and cancel requests served one after
another, for every `booked` booking `b`, the cancel request of its owner
succeeds, and after it the request of any authenticated user `u` for the seat
of `b` on the show of `b` succeeds with a `booked` booking of `u` for that show
and seat: the cancelled row blocks neither the seat check nor the count
check. -/
theorem rebook_after_cancel (shows : List Show) (calls : List Call) (b : Booking)
    (u now₁ now₂ : Nat)
    (hb : b ∈ (run { shows := shows, bookings := [] } calls).bookings)
    (hst : b.Status = BookingStatusBooked) (hu : u ≠ 0) :
    ∃ (s₁ : DB) (nb : Booking) (s₂ : DB),
      CancelBookingHandler (run { shows := shows, bookings := [] } calls) b.UserID b.ID now₁
        = (.message StatusOK "Booking cancelled successfully", s₁) ∧
      BookSeatHandler s₁ u b.ShowID (seatRequest b.SeatNumber) now₂
        = (.booking StatusCreated nb, s₂) ∧
      nb.UserID = u ∧ nb.ShowID = b.ShowID ∧ nb.SeatNumber = b.SeatNumber ∧
      nb.Status = BookingStatusBooked ∧
      s₂.bookings = s₁.bookings ++ [nb] := by
  have hinv := Inv_run _ calls (Inv_empty shows)
  generalize run { shows := shows, bookings := [] } calls = s at hb hinv ⊢
  have hfind := firstBooking_of_mem s b hinv.keys hb
  obtain ⟨sh, hshow, h1, h2⟩ := hinv.seat b hb
  have hcap := hinv.capacity b.ShowID sh hshow (by omega)
  have hlt := countBooked_update_lt s b now₁ hb hst
  have hex := hinv.exclusive b.ShowID b.SeatNumber
  have hlt' := countBookedSeat_update_lt s b now₁ hb hst
  have hfree : firstBookedSeat (updateStatus s b.ID BookingStatusCancelled now₁)
      b.ShowID b.SeatNumber = none := by
    rw [firstBookedSeat_none_iff]
    omega
  refine ⟨updateStatus s b.ID BookingStatusCancelled now₁,
    (createBooking (updateStatus s b.ID BookingStatusCancelled now₁)
      (newBooking u b.ShowID b.SeatNumber now₂)).1,
    (createBooking (updateStatus s b.ID BookingStatusCancelled now₁)
      (newBooking u b.ShowID b.SeatNumber now₂)).2,
    cancel_success s b now₁ hfind (hinv.owner b hb) hst, ?_, rfl, rfl, rfl, rfl, rfl⟩
  exact bookSeat_success _ sh u b.ShowID b.SeatNumber now₂ hshow hu h1 h2 (by omega) hfree

/-- Witness of C10 (Scenario D): user 7 booked seat 3, and user 8 books it after
the cancellation. -/
theorem rebook_after_cancel_witness :
    seatThreeRow ∈ (run tenSeatShow [.reserve 7 1 (seatRequest 3) 100]).bookings ∧
    ∃ (s₁ : DB) (nb : Booking) (s₂ : DB),
      CancelBookingHandler (run tenSeatShow [.reserve 7 1 (seatRequest 3) 100])
          seatThreeRow.UserID seatThreeRow.ID 200
        = (.message StatusOK "Booking cancelled successfully", s₁) ∧
      BookSeatHandler s₁ 8 seatThreeRow.ShowID (seatRequest seatThreeRow.SeatNumber) 300
        = (.booking StatusCreated nb, s₂) ∧
      nb.UserID = 8 ∧ nb.ShowID = seatThreeRow.ShowID ∧
      nb.SeatNumber = seatThreeRow.SeatNumber ∧
      nb.Status = BookingStatusBooked ∧
      s₂.bookings = s₁.bookings ++ [nb] :=
  ⟨by decide,
    rebook_after_cancel tenSeatShow.shows [.reserve 7 1 (seatRequest 3) 100] seatThreeRow
      8 200 300 (by decide) (by decide) (by decide)⟩

/-- C11, as stated, fails: no store reached from a store with no bookings by
booking and cancel requests served one after another has a show and a seat of
`1..TotalSeats` held by no `booked` row while the booked count of the show has
reached `TotalSeats`; and in no such store is a request for a seat held by no
`booked` row answered "Show is fully booked". -/
theorem count_check_counterexample :
    (¬ ∃ (shows : List Show) (calls : List Call) (sh : Show) (showID : Nat) (seat : Int),
      firstShow (run { shows := shows, bookings := [] } calls) showID = some sh ∧
      1 ≤ seat ∧ seat ≤ sh.TotalSeats ∧
      (∀ b ∈ (run { shows := shows, bookings := [] } calls).bookings,
        ¬ (b.ShowID = showID ∧ b.SeatNumber = seat ∧ b.Status = BookingStatusBooked)) ∧
      (countBooked (run { shows := shows, bookings := [] } calls) showID : Int)
        ≥ sh.TotalSeats) ∧
    (¬ ∃ (shows : List Show) (calls : List Call) (userID showID : Nat) (seat : Int)
        (now : Nat),
      (∀ b ∈ (run { shows := shows, bookings := [] } calls).bookings,
        ¬ (b.ShowID = showID ∧ b.SeatNumber = seat ∧ b.Status = BookingStatusBooked)) ∧
      (BookSeatHandler (run { shows := shows, bookings := [] } calls) userID showID
          (seatRequest seat) now).1
        = .error StatusBadRequest "Show is fully booked") := by
  have key : ∀ (shows : List Show) (calls : List Call) (sh : Show) (showID : Nat)
      (seat : Int),
      firstShow (run { shows := shows, bookings := [] } calls) showID = some sh →
      1 ≤ seat → seat ≤ sh.TotalSeats →
      (∀ b ∈ (run { shows := shows, bookings := [] } calls).bookings,
        ¬ (b.ShowID = showID ∧ b.SeatNumber = seat ∧ b.Status = BookingStatusBooked)) →
      (countBooked (run { shows := shows, bookings := [] } calls) showID : Int)
        < sh.TotalSeats := by
    intro shows calls sh showID seat hshow h1 h2 hfree
    apply count_lt_of_free_seat _ sh showID seat (Inv_run _ calls (Inv_empty shows))
      hshow h1 h2
    unfold countBookedSeat
    rw [List.countP_eq_zero]
    intro b hb
    simpa using hfree b hb
  constructor
  · rintro ⟨shows, calls, sh, showID, seat, hshow, h1, h2, hfree, hge⟩
    have := key shows calls sh showID seat hshow h1 h2 hfree
    omega
  · rintro ⟨shows, calls, userID, showID, seat, now, hfree, hresp⟩
    obtain ⟨sh, hshow, h1, h2, hge⟩ := show_full_only_if _ userID showID seat now hresp
    have := key shows calls sh showID seat hshow h1 h2 hfree
    omega

/-- C11 as amended: in every store reached from a store with no bookings by
booking and cancel requests served one after another (seats cancelled and
booked again included), for every show and every seat of `1..TotalSeats` that
no `booked` row holds, the booked count of the show is below `TotalSeats`; the
count check therefore does not reject the request, which is not answered "Show
is fully booked" and, for an authenticated user, succeeds with a `booked`
booking of that seat. -/
theorem free_seat_below_capacity (shows : List Show) (calls : List Call) (sh : Show)
    (showID userID : Nat) (seat : Int) (now : Nat)
    (hshow : firstShow (run { shows := shows, bookings := [] } calls) showID = some sh)
    (h1 : 1 ≤ seat) (h2 : seat ≤ sh.TotalSeats)
    (hfree : ∀ b ∈ (run { shows := shows, bookings := [] } calls).bookings,
      ¬ (b.ShowID = showID ∧ b.SeatNumber = seat ∧ b.Status = BookingStatusBooked))
    (hu : userID ≠ 0) :
    (countBooked (run { shows := shows, bookings := [] } calls) showID : Int)
      < sh.TotalSeats ∧
    (BookSeatHandler (run { shows := shows, bookings := [] } calls) userID showID
        (seatRequest seat) now).1
      ≠ .error StatusBadRequest "Show is fully booked" ∧
    ∃ (nb : Booking) (s' : DB),
      BookSeatHandler (run { shows := shows, bookings := [] } calls) userID showID
          (seatRequest seat) now
        = (.booking StatusCreated nb, s') ∧
      nb.UserID = userID ∧ nb.ShowID = showID ∧ nb.SeatNumber = seat ∧
      nb.Status = BookingStatusBooked := by
  have hinv := Inv_run _ calls (Inv_empty shows)
  generalize run { shows := shows, bookings := [] } calls = s at hshow hfree hinv ⊢
  have hzero : countBookedSeat s showID seat = 0 := by
    unfold countBookedSeat
    rw [List.countP_eq_zero]
    intro b hb
    simpa using hfree b hb
  have hlt := count_lt_of_free_seat s sh showID seat hinv hshow h1 h2 hzero
  have hok := bookSeat_success s sh userID showID seat now hshow hu h1 h2 hlt
    ((firstBookedSeat_none_iff s showID seat).2 hzero)
  refine ⟨hlt, ?_, _, _, hok, rfl, rfl, rfl, rfl⟩
  rw [hok]
  exact fun h => Response.noConfusion h

/-- Witness of amended C11: after seat 1 of the two-seat show was booked,
cancelled and booked again, seat 2 is free and the booked count is 1. -/
theorem free_seat_below_capacity_witness :
    firstShow (run twoSeatShow seatOneReused) 1 = some { ID := 1, TotalSeats := 2 } ∧
    countBooked (run twoSeatShow seatOneReused) 1 = 1 ∧
    ((countBooked (run twoSeatShow seatOneReused) 1 : Int) < 2 ∧
    (BookSeatHandler (run twoSeatShow seatOneReused) 9 1 (seatRequest 2) 103).1
      ≠ .error StatusBadRequest "Show is fully booked" ∧
    ∃ (nb : Booking) (s' : DB),
      BookSeatHandler (run twoSeatShow seatOneReused) 9 1 (seatRequest 2) 103
        = (.booking StatusCreated nb, s') ∧
      nb.UserID = 9 ∧ nb.ShowID = 1 ∧ nb.SeatNumber = 2 ∧
      nb.Status = BookingStatusBooked) :=
  ⟨by decide, by decide,
    free_seat_below_capacity twoSeatShow.shows seatOneReused { ID := 1, TotalSeats := 2 }
      1 9 2 103 (by decide) (by decide) (by decide) (by decide) (by decide)⟩

end MovieBooking
